import Mathlib

set_option maxRecDepth 8000

namespace Mirtech

/-!
Verification development for the caching layer of the MirTech analytics API
(`src/api/main.py`).  The definitions below are a shallow embedding of the
cache-key derivation (`get_cache_key`, built on `hashlib.md5` of the
canonical JSON dump of the parameters), the store adapter helpers
(`get_from_cache` / `set_to_cache`), the read-through endpoint handlers, the
time-window filter logic, and the startup preload task (`preload_cache`).
-/

/-! ## Python string helpers: `startswith`-style prefix test and the `in` operator -/

/-- Prefix test on character lists: the first list is an initial segment of the second. -/
def isPfx : List Char → List Char → Bool
  | [], _ => true
  | _ :: _, [] => false
  | p :: ps, c :: cs => p == c && isPfx ps cs

/-- Substring occurrence on character lists; `hasSub pat l` models Python's
string containment test of `pat` inside `l`. -/
def hasSub (pat : List Char) : List Char → Bool
  | [] => pat.isEmpty
  | c :: rest => isPfx pat (c :: rest) || hasSub pat rest

/-- Python `pat in s` for strings. -/
def strIn (pat s : String) : Bool := hasSub pat.data s.data

/-! ## Hex digits -/

/-- The sixteen lowercase hex digit characters, as produced by `hexdigest`. -/
def hexDigits : List Char := "0123456789abcdef".data

/-- The hex digit character of `n % 16`. -/
def hexChar (n : Nat) : Char := hexDigits.getD (n % 16) '0'

/-- Is `c` one of the sixteen lowercase hex digit characters? -/
def isHexDigit (c : Char) : Bool := hexDigits.contains c

/-- The two hex characters of a byte, as in `"%02x" % b`. -/
def byteToHex (b : Nat) : List Char := [hexChar (b / 16), hexChar b]

/-! ## MD5 (`hashlib.md5(...).hexdigest()`) over byte lists -/

/-- Two to the thirty-second power: the modulus of 32-bit arithmetic. -/
def m32 : Nat := 4294967296

/-- 32-bit left rotation. -/
def rotl32 (x n : Nat) : Nat := ((x <<< n) ||| (x >>> (32 - n))) % m32

/-- 32-bit bitwise complement. -/
def not32 (x : Nat) : Nat := x ^^^ 4294967295

/-- The 64 MD5 sine-derived round constants. -/
def mdK : List Nat :=
  [0xd76aa478, 0xe8c7b756, 0x242070db, 0xc1bdceee,
   0xf57c0faf, 0x4787c62a, 0xa8304613, 0xfd469501,
   0x698098d8, 0x8b44f7af, 0xffff5bb1, 0x895cd7be,
   0x6b901122, 0xfd987193, 0xa679438e, 0x49b40821,
   0xf61e2562, 0xc040b340, 0x265e5a51, 0xe9b6c7aa,
   0xd62f105d, 0x02441453, 0xd8a1e681, 0xe7d3fbc8,
   0x21e1cde6, 0xc33707d6, 0xf4d50d87, 0x455a14ed,
   0xa9e3e905, 0xfcefa3f8, 0x676f02d9, 0x8d2a4c8a,
   0xfffa3942, 0x8771f681, 0x6d9d6122, 0xfde5380c,
   0xa4beea44, 0x4bdecfa9, 0xf6bb4b60, 0xbebfbc70,
   0x289b7ec6, 0xeaa127fa, 0xd4ef3085, 0x04881d05,
   0xd9d4d039, 0xe6db99e5, 0x1fa27cf8, 0xc4ac5665,
   0xf4292244, 0x432aff97, 0xab9423a7, 0xfc93a039,
   0x655b59c3, 0x8f0ccc92, 0xffeff47d, 0x85845dd1,
   0x6fa87e4f, 0xfe2ce6e0, 0xa3014314, 0x4e0811a1,
   0xf7537e82, 0xbd3af235, 0x2ad7d2bb, 0xeb86d391]

/-- The 64 MD5 per-round left-rotation amounts. -/
def mdS : List Nat :=
  [7, 12, 17, 22, 7, 12, 17, 22, 7, 12, 17, 22, 7, 12, 17, 22,
   5, 9, 14, 20, 5, 9, 14, 20, 5, 9, 14, 20, 5, 9, 14, 20,
   4, 11, 16, 23, 4, 11, 16, 23, 4, 11, 16, 23, 4, 11, 16, 23,
   6, 10, 15, 21, 6, 10, 15, 21, 6, 10, 15, 21, 6, 10, 15, 21]

/-- One MD5 round: `m` is the 16-word message block, `st` the running
`(A, B, C, D)` state, `i` the round index. -/
def md5Round (m : List Nat) (st : Nat × Nat × Nat × Nat) (i : Nat) : Nat × Nat × Nat × Nat :=
  let (a, b, c, d) := st
  let f :=
    if i < 16 then (b &&& c) ||| (not32 b &&& d)
    else if i < 32 then (d &&& b) ||| (not32 d &&& c)
    else if i < 48 then b ^^^ c ^^^ d
    else c ^^^ (b ||| not32 d)
  let g :=
    if i < 16 then i
    else if i < 32 then (5 * i + 1) % 16
    else if i < 48 then (3 * i + 5) % 16
    else (7 * i) % 16
  let x := (f + a + mdK.getD i 0 + m.getD g 0) % m32
  (d, (b + rotl32 x (mdS.getD i 0)) % m32, b, c)

/-- Compress one 16-word block into the state. -/
def md5Chunk (st : Nat × Nat × Nat × Nat) (m : List Nat) : Nat × Nat × Nat × Nat :=
  let r := (List.range 64).foldl (md5Round m) st
  ((st.1 + r.1) % m32, (st.2.1 + r.2.1) % m32, (st.2.2.1 + r.2.2.1) % m32,
   (st.2.2.2 + r.2.2.2) % m32)

/-- Little-endian 32-bit words of a byte list. -/
def leWords : List Nat → List Nat
  | b0 :: b1 :: b2 :: b3 :: rest =>
    (b0 + 256 * b1 + 65536 * b2 + 16777216 * b3) :: leWords rest
  | _ => []

/-- Split a byte list into 64-byte chunks (structural recursion on a fuel
argument so that the definition reduces inside the kernel; the fuel
`l.length` always suffices since every step consumes at least one byte). -/
def chunks64Aux : Nat → List Nat → List (List Nat)
  | _, [] => []
  | 0, _ :: _ => []
  | fuel + 1, a :: t => ((a :: t).take 64) :: chunks64Aux fuel ((a :: t).drop 64)

/-- Split a byte list into 64-byte chunks. -/
def chunks64 (l : List Nat) : List (List Nat) := chunks64Aux l.length l

/-- The eight little-endian bytes of a 64-bit length. -/
def lenLE8 (n : Nat) : List Nat :=
  [n % 256, n / 256 % 256, n / 65536 % 256, n / 16777216 % 256,
   n / 4294967296 % 256, n / 1099511627776 % 256,
   n / 281474976710656 % 256, n / 72057594037927936 % 256]

/-- MD5 padding: a `0x80` byte, zeros to 56 mod 64, then the bit length. -/
def padBytes (msg : List Nat) : List Nat :=
  let n := msg.length
  let padLen := (119 - n % 64) % 64
  msg ++ 128 :: List.replicate padLen 0 ++ lenLE8 ((8 * n) % (2 ^ 64))

/-- The four little-endian bytes of a 32-bit word. -/
def wordLE4 (n : Nat) : List Nat := [n % 256, n / 256 % 256, n / 65536 % 256, n / 16777216 % 256]

/-- The 16-byte MD5 digest of a byte list. -/
def md5Bytes (msg : List Nat) : List Nat :=
  let st := (chunks64 (padBytes msg)).foldl (fun st ch => md5Chunk st (leWords ch))
    (0x67452301, 0xefcdab89, 0x98badcfe, 0x10325476)
  wordLE4 st.1 ++ wordLE4 st.2.1 ++ wordLE4 st.2.2.1 ++ wordLE4 st.2.2.2

/-- `hashlib.md5(msg).hexdigest()`: the 32-character lowercase hex digest. -/
def md5Hex (msg : List Nat) : String := ⟨(md5Bytes msg).flatMap byteToHex⟩

/-- UTF-8 bytes of one character (`str.encode()`). -/
def utf8Char (c : Char) : List Nat :=
  let n := c.toNat
  if n < 128 then [n]
  else if n < 2048 then [192 + n / 64, 128 + n % 64]
  else if n < 65536 then [224 + n / 4096, 128 + n / 64 % 64, 128 + n % 64]
  else [240 + n / 262144, 128 + n / 4096 % 64, 128 + n / 64 % 64, 128 + n % 64]

/-- UTF-8 bytes of a string (`str.encode()`). -/
def utf8 (s : String) : List Nat := s.data.flatMap utf8Char

/-! ## Canonical JSON serialization: `json.dumps(params, sort_keys=True, default=str)`

Parameter values arriving at `get_cache_key` are strings, integers, booleans
or `None` (values such as `UUID`s are rendered through `default=str` and so
also arrive as strings).  `JValue` covers exactly these shapes. -/

/-- A JSON-serializable parameter value. -/
inductive JValue where
  | jnull
  | jbool (b : Bool)
  | jint (n : Int)
  | jstr (s : String)
deriving DecidableEq

/-- Four hex characters of a 16-bit value, for `\uXXXX` escapes. -/
def hex4 (n : Nat) : List Char := [hexChar (n / 4096), hexChar (n / 256), hexChar (n / 16), hexChar n]

/-- A `\uXXXX` escape sequence. -/
def uEsc (n : Nat) : List Char := '\\' :: 'u' :: hex4 n

/-- JSON escaping of one character with `ensure_ascii=True` (the
`json.dumps` default): printable ASCII other than quote and backslash is
kept, the common control characters get short escapes, and everything else
becomes `\uXXXX` (a surrogate pair beyond the BMP). -/
def jsonEscChar (c : Char) : List Char :=
  if c = '"' then ['\\', '"']
  else if c = '\\' then ['\\', '\\']
  else if c = '\n' then ['\\', 'n']
  else if c = '\t' then ['\\', 't']
  else if c = '\r' then ['\\', 'r']
  else if c.toNat = 8 then ['\\', 'b']
  else if c.toNat = 12 then ['\\', 'f']
  else if 32 ≤ c.toNat && c.toNat ≤ 126 then [c]
  else if c.toNat < 65536 then uEsc c.toNat
  else uEsc (55296 + (c.toNat - 65536) / 1024) ++ uEsc (56320 + (c.toNat - 65536) % 1024)

/-- A JSON string literal with its surrounding quotes. -/
def jsonStr (s : String) : String := ⟨'"' :: (s.data.flatMap jsonEscChar ++ ['"'])⟩

/-- Rendering of one JSON value, as `json.dumps` prints scalars. -/
def renderJ : JValue → String
  | .jnull => "null"
  | .jbool true => "true"
  | .jbool false => "false"
  | .jint n => toString n
  | .jstr s => jsonStr s

/-- Code-point lexicographic strict comparison of character lists: Python's
string ordering, which `sorted` and `sort_keys=True` use on the names. -/
def keyLtb : List Char → List Char → Bool
  | [], [] => false
  | [], _ :: _ => true
  | _ :: _, [] => false
  | a :: as, b :: bs =>
    if a.toNat < b.toNat then true
    else if b.toNat < a.toNat then false
    else keyLtb as bs

/-- Python `key1 <= key2` on strings (total order, negation of strict). -/
def keyLeb (a b : String) : Bool := !(keyLtb b.data a.data)

/-- `sort_keys=True`: parameters ordered by name (codepoint order). -/
def sortParams (ps : List (String × JValue)) : List (String × JValue) :=
  List.insertionSort (fun a b => keyLeb a.1 b.1 = true) ps

/-- `json.dumps(params, sort_keys=True, default=str)` with the default
separators: a brace-delimited object with `", "` between members and
`": "` after each key. -/
def dumpsSorted (ps : List (String × JValue)) : String :=
  "\x7b" ++ String.intercalate ", "
    ((sortParams ps).map (fun kv => jsonStr kv.1 ++ ": " ++ renderJ kv.2)) ++ "\x7d"

/-- `get_cache_key(endpoint, **params)` from `src/api/main.py`: the endpoint
name, a colon, and the md5 hex digest of the canonical JSON dump of the
parameter mapping. -/
def get_cache_key (endpoint : String) (params : List (String × JValue)) : String :=
  endpoint ++ ":" ++ md5Hex (utf8 (dumpsSorted params))

/-! ## `set_to_cache`: the adaptive expiration policy -/

/-- The three longest time windows, checked first by `set_to_cache`. -/
def longPeriods : List String := ["6months", "9months", "1year"]

/-- The medium time windows, checked second by `set_to_cache`. -/
def mediumPeriods : List String := ["month", "3months"]

/-- The TTL actually stored by `set_to_cache(redis, cache_key, data, expire)`:
the `expire` argument, overridden to 86400 when a long-period token occurs as
a substring of the cache key and to 3600 when a medium-period token does. -/
def setToCacheExpire (cacheKey : String) (expire : Nat) : Nat :=
  if longPeriods.any (fun p => strIn p cacheKey) then 86400
  else if mediumPeriods.any (fun p => strIn p cacheKey) then 3600
  else expire

/-! ## The Redis store adapter

The store maps keys to a payload plus an absolute expiration instant
(`SETEX key ttl value`); `GET` sees an entry only before that instant.
JSON round-tripping of payloads (`json.dumps` on write, `json.loads` on
read) is the identity on the payload values cached here, so entries hold
the payload directly.  A transient connection failure of a Redis command
raises in the Python client; the adapter therefore returns in `Except`,
with the failing commands chosen by the two flags of `RedisState`. -/

/-- One cache entry: payload and absolute expiration time. -/
structure Entry (α : Type) where
  value : α
  expireAt : Nat
deriving DecidableEq

/-- The backing key-value store. -/
abbrev Store (α : Type) := List (String × Entry α)

/-- The Redis client handle: the physical store plus fault flags saying
whether `GET` / `SETEX` commands currently fail. -/
structure RedisState (α : Type) where
  store : Store α
  getFails : Bool
  setFails : Bool
deriving DecidableEq

/-- `GET key`: the stored payload when present and not yet expired. -/
def storeLookup (st : Store α) (now : Nat) (k : String) : Option α :=
  match st.find? (fun p => p.1 == k) with
  | some p => if now < p.2.expireAt then some p.2.value else none
  | none => none

/-- `SETEX key ttl value`: overwrite any entry for `k`, including its TTL. -/
def storeSet (st : Store α) (now : Nat) (k : String) (v : α) (ttl : Nat) : Store α :=
  (k, ⟨v, now + ttl⟩) :: st.filter (fun p => !(p.1 == k))

/-- `get_from_cache(redis_client, cache_key)`: a raw `GET` plus decode; there
is no exception handling, so a failing store command propagates. -/
def get_from_cache (r : RedisState α) (now : Nat) (k : String) : Except Unit (Option α) :=
  if r.getFails then .error () else .ok (storeLookup r.store now k)

/-- `set_to_cache(redis_client, cache_key, data, expire)`: applies the
adaptive-TTL adjustment of `setToCacheExpire` and issues `SETEX`; again no
exception handling, so a failing store command propagates. -/
def set_to_cache (r : RedisState α) (now : Nat) (k : String) (v : α) (expire : Nat) :
    Except Unit (RedisState α) :=
  if r.setFails then .error ()
  else .ok { r with store := storeSet r.store now k v (setToCacheExpire k expire) }

/-! ## The read-through control flow shared by the list endpoints

`/all`, `/products/search`, `/products`, `/users`, `/orders` and
`/transactions` all follow the same inline pattern: derive the key, check
the cache, return the decoded payload when it is truthy (a non-empty list),
otherwise run the query, write the result through `set_to_cache` and return
it.  `queryResult` stands for the row list the source-of-truth query would
produce; `sotQueries` counts how many times that query was executed. -/

/-- The outcome of one read-through request. -/
structure ReadOut (ρ : Type) where
  payload : List ρ
  sotQueries : Nat
  cacheWrites : Nat
  redis : RedisState (List ρ)
deriving DecidableEq

/-- The shared read-through request flow of the list endpoints. -/
def readThroughList (endpoint : String) (params : List (String × JValue)) (expire : Nat)
    (queryResult : List ρ) (r : RedisState (List ρ)) (now : Nat) :
    Except Unit (ReadOut ρ) := do
  let key := get_cache_key endpoint params
  let cached ← get_from_cache r now key
  match cached with
  | some (x :: xs) => return ⟨x :: xs, 0, 0, r⟩
  | _ =>
    let r2 ← set_to_cache r now key queryResult expire
    return ⟨queryResult, 1, 1, r2⟩

/-! ## Time-window handling

`periods_map` as written inline in `get_all_item`, `search_products_sales`,
`get_chart_stats` and `get_summary_stats`; durations in days.  Dates are
modelled as day counts. -/

/-- The recognized time-window tokens and their durations in days. -/
def periodsMapDays : List (String × Nat) :=
  [("week", 7), ("2weeks", 14), ("month", 30), ("3months", 90),
   ("6months", 180), ("9months", 270), ("1year", 365)]

/-- Python truthiness of an `Optional[str]`: `None` and `""` are falsy. -/
def truthyOptStr : Option String → Bool
  | some s => s != ""
  | none => false

/-- The date filter of `get_all_item`: `if period: ... elif from_date: ...`.
`fromDateParsed` is the already-parsed `from_date` fallback (`None` when the
parameter is absent or fails to parse, in which case filtering is skipped). -/
def factStartDate (now : Nat) (period : Option String) (fromDateParsed : Option Nat) : Option Nat :=
  if truthyOptStr period then
    match periodsMapDays.lookup (period.getD "") with
    | some d => some (now - d)
    | none => none
  else fromDateParsed

/-- The date filter of `search_products_sales` (no `from_date` fallback). -/
def searchStartDate (now : Nat) (period : Option String) : Option Nat :=
  if truthyOptStr period then
    match periodsMapDays.lookup (period.getD "") with
    | some d => some (now - d)
    | none => none
  else none

/-- The window duration used by `get_chart_stats`:
`periods_map.get(period, timedelta(days=7))`. -/
def chart_start_delta (period : String) : Nat :=
  (periodsMapDays.lookup period).getD 7

/-- The date filter of `get_chart_stats`: always `now - chart_start_delta`. -/
def chartDateFilter (now : Nat) (period : String) : Option Nat :=
  some (now - chart_start_delta period)

/-- Which branch `get_summary_stats` takes: a single period when the token is
truthy and recognized (`if period and period in periods:`), otherwise the
all-periods breakdown. -/
inductive SummaryMode where
  | single (period : String)
  | allPeriods
deriving DecidableEq

/-- The branch selector of `get_summary_stats`. -/
def summaryMode (period : Option String) : SummaryMode :=
  if truthyOptStr period && (periodsMapDays.lookup (period.getD "")).isSome then
    .single (period.getD "")
  else .allPeriods

/-! ## Query predicates

Case-insensitive substring match models SQLAlchemy's
`column.ilike(f"%{value}%")`; the remaining filters are plain comparisons.
Monetary values are modelled at integer precision. -/

/-- Case-insensitive containment, as `ilike("%needle%")`. -/
def ilike (needle hay : String) : Bool :=
  hasSub (needle.data.map Char.toLower) (hay.data.map Char.toLower)

/-- A filter guarded by `if value:` — skipped for `None` and `""`. -/
def optStrFilter (v : Option String) (test : String → Bool) : Bool :=
  match v with
  | some s => if s != "" then test s else true
  | none => true

/-- A filter guarded by `if value is not None:`. -/
def optIntFilter (v : Option Int) (test : Int → Bool) : Bool :=
  match v with
  | some n => test n
  | none => true

/-! ## `/all` (`get_all_item`) -/

/-- One row of the denormalized `fact_sales` table (the columns the
endpoint filters touch). -/
structure FactRow where
  product_name : String
  product_category : String
  product_price : Int
  order_status : String
  order_created_at : Nat
  order_item_quantity : Int
  transaction_status : String
  transaction_payment_method : String
  user_email : String
deriving DecidableEq

/-- The query parameters of `get_all_item`, with their FastAPI defaults. -/
structure FactParams where
  product_category : Option String := none
  order_status : Option String := none
  transaction_status : Option String := none
  payment_method : Option String := none
  user_email : Option String := none
  min_price : Option Int := none
  max_price : Option Int := none
  min_quantity : Option Int := none
  period : Option String := none
  from_date : Option String := none
  skip : Nat := 0
  limit : Nat := 1000
deriving DecidableEq

/-- `None`-aware conversions into JSON parameter values. -/
def jOptStr : Option String → JValue
  | some s => .jstr s
  | none => .jnull

/-- `None`-aware integer parameter value. -/
def jOptInt : Option Int → JValue
  | some n => .jint n
  | none => .jnull

/-- `None`-aware boolean parameter value. -/
def jOptBool : Option Bool → JValue
  | some b => .jbool b
  | none => .jnull

/-- A natural-number parameter value. -/
def jNat (n : Nat) : JValue := .jint n

/-- The keyword arguments `get_all_item` passes to `get_cache_key`; `lim` is
the already-capped limit. -/
def factParamsList (p : FactParams) (lim : Nat) : List (String × JValue) :=
  [("product_category", jOptStr p.product_category),
   ("order_status", jOptStr p.order_status),
   ("transaction_status", jOptStr p.transaction_status),
   ("payment_method", jOptStr p.payment_method),
   ("user_email", jOptStr p.user_email),
   ("min_price", jOptInt p.min_price),
   ("max_price", jOptInt p.max_price),
   ("min_quantity", jOptInt p.min_quantity),
   ("period", jOptStr p.period),
   ("from_date", jOptStr p.from_date),
   ("skip", jNat p.skip),
   ("limit", jNat lim)]

/-- The cache key `get_all_item` derives (limit capped at 10000). -/
def factKey (p : FactParams) : String :=
  get_cache_key "fact_sales" (factParamsList p (min p.limit 10000))

/-- The filter predicate `get_all_item` builds on the `fact_sales` query. -/
def factRowMatch (now : Nat) (p : FactParams) (fdp : Option Nat) (row : FactRow) : Bool :=
  (match factStartDate now p.period fdp with
   | some sd => sd ≤ row.order_created_at
   | none => true)
  && optStrFilter p.product_category (fun c => ilike c row.product_category)
  && optStrFilter p.order_status (fun s => row.order_status == s)
  && optStrFilter p.transaction_status (fun s => row.transaction_status == s)
  && optStrFilter p.payment_method (fun s => row.transaction_payment_method == s)
  && optStrFilter p.user_email (fun s => ilike s row.user_email)
  && optIntFilter p.min_price (fun v => v ≤ row.product_price)
  && optIntFilter p.max_price (fun v => row.product_price ≤ v)
  && optIntFilter p.min_quantity (fun v => v ≤ row.order_item_quantity)

/-- The source-of-truth query of `get_all_item`:
`query.filter(...).offset(skip).limit(lim).all()`. -/
def runFactQuery (db : List FactRow) (now : Nat) (p : FactParams) (fdp : Option Nat)
    (lim : Nat) : List FactRow :=
  ((db.filter (factRowMatch now p fdp)).drop p.skip).take lim

/-- The parsed `from_date` parameter: `datetime.fromisoformat` under
`if from_date:` and `try/except ValueError: pass`.  `parseIso` stands for the
parser; a parse failure yields `none` and the filter is skipped. -/
def factFromDate (parseIso : String → Option Nat) (p : FactParams) : Option Nat :=
  match p.from_date with
  | some s => if s != "" then parseIso s else none
  | none => none

/-- `GET /all` (`get_all_item`): cap the limit, derive the key, and run the
read-through flow with a 300-second write TTL. -/
def get_all_item (parseIso : String → Option Nat) (db : List FactRow)
    (r : RedisState (List FactRow)) (now : Nat) (p : FactParams) :
    Except Unit (ReadOut FactRow) :=
  let lim := min p.limit 10000
  readThroughList "fact_sales" (factParamsList p lim) 300
    (runFactQuery db now p (factFromDate parseIso p) lim) r now

/-! ## `/products/search` (`search_products_sales`) -/

/-- The query parameters of `search_products_sales`. -/
structure SearchParams where
  query : String
  period : Option String := none
  skip : Nat := 0
  limit : Nat := 1000
deriving DecidableEq

/-- The keyword arguments `search_products_sales` passes to `get_cache_key`. -/
def searchParamsList (p : SearchParams) (lim : Nat) : List (String × JValue) :=
  [("query", .jstr p.query), ("period", jOptStr p.period),
   ("skip", jNat p.skip), ("limit", jNat lim)]

/-- The cache key `search_products_sales` derives (limit capped at 10000). -/
def searchKey (p : SearchParams) : String :=
  get_cache_key "product_search" (searchParamsList p (min p.limit 10000))

/-- The filter predicate of `search_products_sales`. -/
def searchRowMatch (now : Nat) (p : SearchParams) (row : FactRow) : Bool :=
  ilike p.query row.product_name
  && (match searchStartDate now p.period with
      | some sd => sd ≤ row.order_created_at
      | none => true)

/-- The source-of-truth query of `search_products_sales`. -/
def runSearchQuery (db : List FactRow) (now : Nat) (p : SearchParams) (lim : Nat) :
    List FactRow :=
  ((db.filter (searchRowMatch now p)).drop p.skip).take lim

/-- `GET /products/search`: read-through with a 300-second write TTL. -/
def search_products_sales (db : List FactRow) (r : RedisState (List FactRow)) (now : Nat)
    (p : SearchParams) : Except Unit (ReadOut FactRow) :=
  let lim := min p.limit 10000
  readThroughList "product_search" (searchParamsList p lim) 300
    (runSearchQuery db now p lim) r now

/-! ## `/products` (`get_all_products`) -/

/-- One row of the products table. -/
structure ProductRow where
  name : String
  category : String
  price : Int
  stock : Nat
  rating : Int
deriving DecidableEq

/-- The query parameters of `get_all_products`. -/
structure ProductParams where
  category : Option String := none
  name : Option String := none
  min_price : Option Int := none
  max_price : Option Int := none
  min_rating : Option Int := none
  in_stock : Option Bool := none
  skip : Nat := 0
  limit : Nat := 100
deriving DecidableEq

/-- The keyword arguments `get_all_products` passes to `get_cache_key`
(no limit cap on this endpoint). -/
def productParamsList (p : ProductParams) : List (String × JValue) :=
  [("category", jOptStr p.category), ("name", jOptStr p.name),
   ("min_price", jOptInt p.min_price), ("max_price", jOptInt p.max_price),
   ("min_rating", jOptInt p.min_rating), ("in_stock", jOptBool p.in_stock),
   ("skip", jNat p.skip), ("limit", jNat p.limit)]

/-- The cache key `get_all_products` derives. -/
def productsKey (p : ProductParams) : String :=
  get_cache_key "products" (productParamsList p)

/-- The filter predicate of `get_all_products`. -/
def productRowMatch (p : ProductParams) (row : ProductRow) : Bool :=
  optStrFilter p.category (fun c => ilike c row.category)
  && optStrFilter p.name (fun n => ilike n row.name)
  && optIntFilter p.min_price (fun v => v ≤ row.price)
  && optIntFilter p.max_price (fun v => row.price ≤ v)
  && optIntFilter p.min_rating (fun v => v ≤ row.rating)
  && (match p.in_stock with
      | some true => 0 < row.stock
      | some false => row.stock == 0
      | none => true)

/-- The source-of-truth query of `get_all_products`. -/
def runProductsQuery (db : List ProductRow) (p : ProductParams) : List ProductRow :=
  ((db.filter (productRowMatch p)).drop p.skip).take p.limit

/-- `GET /products`: read-through with the default 600-second write TTL. -/
def get_all_products (db : List ProductRow) (r : RedisState (List ProductRow)) (now : Nat)
    (p : ProductParams) : Except Unit (ReadOut ProductRow) :=
  readThroughList "products" (productParamsList p) 600 (runProductsQuery db p) r now

/-! ## The startup preload task (`preload_cache`)

For each window in `['6months', '9months', '1year']` the task preloads three
query shapes: the `/stats/charts` aggregate (its block is wrapped in its own
`try/except`, and it is recomputed unconditionally), the `/all` table listing
and the `/stats/summary` aggregate (both guarded by a raw `redis.get` on
their cache key and *not* wrapped in their own `try/except`, so an exception
there reaches the outer `try` of `preload_cache`, which stops the loop).

The store holds opaque payloads (`Unit`); `fail s w` says whether computing
or storing the pair `(s, w)` raises.  `queried` lists the pairs whose
source-of-truth queries were executed (reached), in order; `aborted` records
that the outer exception handler fired, skipping all remaining pairs. -/

/-- The three preloaded query shapes. -/
inductive Shape where
  | chart
  | table
  | summary
deriving DecidableEq

/-- The windows preloaded at startup. -/
def preloadWindows : List String := ["6months", "9months", "1year"]

/-- The cache key of the `/stats/charts` payload for window `w`. -/
def chartKey (w : String) : String :=
  get_cache_key "chart_stats" [("period", .jstr w)]

/-- The cache key of the `/stats/summary` payload for window `w`. -/
def summaryKey (w : String) : String :=
  get_cache_key "summary_stats" [("period", .jstr w)]

/-- The cache key of the `/all` table payload preloaded for window `w`
(all filters at their defaults, `skip=0`, `limit=1000`). -/
def tableKey (w : String) : String :=
  get_cache_key "fact_sales" (factParamsList { period := some w } 1000)

/-- The result of a preload run. -/
structure PreloadOut where
  queried : List (Shape × String)
  store : Store Unit
  aborted : Bool
deriving DecidableEq

/-- The summary part of one preload iteration: guarded by `redis.get`, not
wrapped in a per-pair `try`, stored with explicit `expire=3600*24`. -/
def preloadSummaryStep (fail : Shape → String → Bool) (now : Nat) (st : Store Unit)
    (w : String) (q : List (Shape × String)) : PreloadOut :=
  if (storeLookup st now (summaryKey w)).isSome then ⟨q, st, false⟩
  else if fail .summary w then ⟨q ++ [(.summary, w)], st, true⟩
  else ⟨q ++ [(.summary, w)],
    storeSet st now (summaryKey w) () (setToCacheExpire (summaryKey w) 86400), false⟩

/-- One window of the preload loop: chart (in its own `try/except`,
unconditional), then the guarded table listing, then the guarded summary. -/
def preloadStep (fail : Shape → String → Bool) (now : Nat) (st : Store Unit) (w : String) :
    PreloadOut :=
  let st1 := if fail .chart w then st
    else storeSet st now (chartKey w) () (setToCacheExpire (chartKey w) 86400)
  if (storeLookup st1 now (tableKey w)).isSome then
    preloadSummaryStep fail now st1 w [(.chart, w)]
  else if fail .table w then ⟨[(.chart, w), (.table, w)], st1, true⟩
  else
    preloadSummaryStep fail now
      (storeSet st1 now (tableKey w) () (setToCacheExpire (tableKey w) 86400)) w
      [(.chart, w), (.table, w)]

/-- The preload loop over a list of windows, stopping at the first exception
that reaches the outer handler. -/
def preloadGo (fail : Shape → String → Bool) (now : Nat) :
    List String → Store Unit → PreloadOut
  | [], st => ⟨[], st, false⟩
  | w :: ws, st =>
    let s := preloadStep fail now st w
    if s.aborted then s
    else
      let rest := preloadGo fail now ws s.store
      ⟨s.queried ++ rest.queried, rest.store, rest.aborted⟩

/-- The whole `preload_cache` startup task. -/
def preload_cache (fail : Shape → String → Bool) (now : Nat) (st : Store Unit) : PreloadOut :=
  preloadGo fail now preloadWindows st

/-! ## The digest part of a derived key is pure hex, so no period token can
occur in a cache key -/

lemma isHexDigit_hexChar (n : Nat) : isHexDigit (hexChar n) = true := by
  have hlt : n % 16 < 16 := Nat.mod_lt _ (by decide)
  have h : ∀ k < 16, isHexDigit (hexDigits.getD k '0') = true := by decide
  exact h _ hlt

lemma md5Hex_chars (d : List Nat) : ∀ c ∈ (md5Hex d).data, isHexDigit c = true := by
  intro c hc
  have hc2 : c ∈ (md5Bytes d).flatMap byteToHex := hc
  rcases List.mem_flatMap.mp hc2 with ⟨b, -, hb⟩
  simp only [byteToHex, List.mem_cons, List.not_mem_nil, or_false] at hb
  rcases hb with rfl | rfl
  · exact isHexDigit_hexChar _
  · exact isHexDigit_hexChar _

lemma hexNoSub1 (a : Char) (ps : List Char) (ha : isHexDigit a = false) :
    ∀ l : List Char, (∀ c ∈ l, isHexDigit c = true) → hasSub (a :: ps) l = false := by
  intro l
  induction l with
  | nil => intro _; rfl
  | cons c rest ih =>
    intro hl
    have hc : isHexDigit c = true := hl c (List.mem_cons_self _ _)
    have hac : (a == c) = false := by
      cases hbc : a == c
      · rfl
      · have h2 : isHexDigit a = true := by rw [eq_of_beq hbc]; exact hc
        simp [ha] at h2
    have ih2 := ih (fun x hx => hl x (List.mem_cons_of_mem _ hx))
    simp [hasSub, isPfx, hac, ih2]

lemma hexNoSub2 (a b : Char) (ps : List Char) (hb : isHexDigit b = false) :
    ∀ l : List Char, (∀ c ∈ l, isHexDigit c = true) → hasSub (a :: b :: ps) l = false := by
  intro l
  induction l with
  | nil => intro _; rfl
  | cons c rest ih =>
    intro hl
    have ih2 := ih (fun x hx => hl x (List.mem_cons_of_mem _ hx))
    have hpfx : isPfx (b :: ps) rest = false := by
      cases rest with
      | nil => rfl
      | cons d rest2 =>
        have hd : isHexDigit d = true := hl d (by simp)
        have hbd : (b == d) = false := by
          cases hbd : b == d
          · rfl
          · have h2 : isHexDigit b = true := by rw [eq_of_beq hbd]; exact hd
            simp [hb] at h2
        simp [isPfx, hbd]
    simp [hasSub, isPfx, hpfx, ih2]

lemma isPfx_append_cons (x : Char) (ys : List Char) :
    ∀ pat u : List Char, x ∉ pat → isPfx pat u = false →
      isPfx pat (u ++ x :: ys) = false := by
  intro pat
  induction pat with
  | nil => intro u hx h; simp [isPfx] at h
  | cons p ps ih =>
    intro u hx h
    cases u with
    | nil =>
      have hpx : (p == x) = false := by
        cases hpx : p == x
        · rfl
        · exfalso; apply hx; rw [← eq_of_beq hpx]; exact List.mem_cons_self _ _
      simp [isPfx, hpx]
    | cons a u2 =>
      rw [List.cons_append]
      simp only [isPfx] at h ⊢
      cases hpa : p == a
      · simp [hpa]
      · rw [hpa] at h
        simp only [Bool.true_and] at h
        have hx2 : x ∉ ps := fun hh => hx (List.mem_cons_of_mem _ hh)
        simp [ih u2 hx2 h]

lemma noSub_append (pat : List Char) (x : Char) (xs ys : List Char)
    (hx : x ∉ pat) (h1 : hasSub pat xs = false) (h2 : hasSub pat ys = false) :
    hasSub pat (xs ++ x :: ys) = false := by
  induction xs with
  | nil =>
    cases pat with
    | nil => simp [hasSub] at h1
    | cons p ps =>
      have hpx : (p == x) = false := by
        cases hpx : p == x
        · rfl
        · exfalso; apply hx; rw [← eq_of_beq hpx]; exact List.mem_cons_self _ _
      simp [hasSub, isPfx, hpx, h2]
  | cons a xs2 ih =>
    simp only [hasSub, Bool.or_eq_false_iff] at h1
    obtain ⟨hA, hB⟩ := h1
    rw [List.cons_append]
    have hpfx2 : isPfx pat (a :: (xs2 ++ x :: ys)) = false := by
      have h3 := isPfx_append_cons x ys pat (a :: xs2) hx hA
      rw [List.cons_append] at h3
      exact h3
    simp [hasSub, hpfx2, ih hB]

lemma strIn_get_cache_key (pat : String) (endpoint : String)
    (params : List (String × JValue)) (hc : ':' ∉ pat.data)
    (he : hasSub pat.data endpoint.data = false)
    (hhex : ∀ l : List Char, (∀ c ∈ l, isHexDigit c = true) → hasSub pat.data l = false) :
    strIn pat (get_cache_key endpoint params) = false := by
  have hdata : (get_cache_key endpoint params).data
      = endpoint.data ++ ':' :: (md5Hex (utf8 (dumpsSorted params))).data := by
    simp [get_cache_key, String.data_append]
  simp only [strIn, hdata]
  exact noSub_append pat.data ':' endpoint.data _ hc he (hhex _ (md5Hex_chars _))

lemma hexNoSub_6months : ∀ l : List Char, (∀ c ∈ l, isHexDigit c = true) →
    hasSub "6months".data l = false :=
  hexNoSub2 '6' 'm' "onths".data (by decide)

lemma hexNoSub_9months : ∀ l : List Char, (∀ c ∈ l, isHexDigit c = true) →
    hasSub "9months".data l = false :=
  hexNoSub2 '9' 'm' "onths".data (by decide)

lemma hexNoSub_1year : ∀ l : List Char, (∀ c ∈ l, isHexDigit c = true) →
    hasSub "1year".data l = false :=
  hexNoSub2 '1' 'y' "ear".data (by decide)

lemma hexNoSub_month : ∀ l : List Char, (∀ c ∈ l, isHexDigit c = true) →
    hasSub "month".data l = false :=
  hexNoSub1 'm' "onth".data (by decide)

lemma hexNoSub_3months : ∀ l : List Char, (∀ c ∈ l, isHexDigit c = true) →
    hasSub "3months".data l = false :=
  hexNoSub2 '3' 'm' "onths".data (by decide)

/-- On any key actually produced by `get_cache_key` for an endpoint name
free of period tokens, the adaptive branches of `set_to_cache` never fire:
the stored TTL is exactly the `expire` argument. -/
lemma setToCacheExpire_derived (endpoint : String) (params : List (String × JValue)) (x : Nat)
    (h6 : hasSub "6months".data endpoint.data = false)
    (h9 : hasSub "9months".data endpoint.data = false)
    (h1y : hasSub "1year".data endpoint.data = false)
    (hm : hasSub "month".data endpoint.data = false)
    (h3 : hasSub "3months".data endpoint.data = false) :
    setToCacheExpire (get_cache_key endpoint params) x = x := by
  have k6 := strIn_get_cache_key "6months" endpoint params (by decide) h6 hexNoSub_6months
  have k9 := strIn_get_cache_key "9months" endpoint params (by decide) h9 hexNoSub_9months
  have k1y := strIn_get_cache_key "1year" endpoint params (by decide) h1y hexNoSub_1year
  have km := strIn_get_cache_key "month" endpoint params (by decide) hm hexNoSub_month
  have k3 := strIn_get_cache_key "3months" endpoint params (by decide) h3 hexNoSub_3months
  simp [setToCacheExpire, longPeriods, mediumPeriods, k6, k9, k1y, km, k3]

/-- The endpoint names that appear in `get_cache_key` calls in the program. -/
def endpointNames : List String :=
  ["fact_sales", "product_search", "products", "users", "orders", "transactions",
   "chart_stats", "summary_stats"]

/-- C1: evaluation of the code at the failing input.  For the cache write
`get_all_item` performs on a request with `period="6months"` and every other
parameter at its default, the stored TTL is 300 — the `expire` argument —
and not the 86400 the claim prescribes for long windows: `set_to_cache`
substring-matches the window tokens against the derived key, which consists
of the endpoint name, a colon and an md5 hex digest, where no window token
can ever occur. -/
theorem c1_long_window_write_stores_short_ttl :
    setToCacheExpire (factKey { period := some "6months" }) 300 = 300 :=
  setToCacheExpire_derived "fact_sales" _ 300 (by decide) (by decide) (by decide)
    (by decide) (by decide)

/-- C8: when a caller passes an explicit TTL override to the cache write,
the entry is stored with exactly that TTL — for every key the program
derives (any of its endpoint names, any parameter mapping) and every
override value, the window-based branches of the policy never fire. -/
theorem c8_explicit_ttl_override_respected (e : String) (he : e ∈ endpointNames)
    (params : List (String × JValue)) (expire : Nat) :
    setToCacheExpire (get_cache_key e params) expire = expire := by
  fin_cases he <;>
    exact setToCacheExpire_derived _ _ _ (by decide) (by decide) (by decide) (by decide)
      (by decide)

/-- C8 witness: the override is respected at a concrete call. -/
theorem c8_explicit_ttl_override_respected_witness :
    "products" ∈ endpointNames ∧
    setToCacheExpire (get_cache_key "products" [("skip", JValue.jint 0)]) 12345 = 12345 :=
  ⟨by decide, c8_explicit_ttl_override_respected "products" (by decide)
    [("skip", JValue.jint 0)] 12345⟩

/-! ## Determinism of key derivation -/

lemma char_eq_of_toNat_eq (a b : Char) (h : a.toNat = b.toNat) : a = b :=
  Char.eq_of_val_eq (UInt32.eq_of_toBitVec_eq (BitVec.eq_of_toNat_eq h))

lemma keyLtb_total : ∀ l1 l2 : List Char, keyLtb l1 l2 = false ∨ keyLtb l2 l1 = false := by
  intro l1
  induction l1 with
  | nil => intro l2; cases l2 <;> simp [keyLtb]
  | cons a as ih =>
    intro l2
    cases l2 with
    | nil => simp [keyLtb]
    | cons b bs =>
      by_cases h1 : a.toNat < b.toNat
      · right; simp [keyLtb, h1, Nat.lt_asymm h1]
      · by_cases h2 : b.toNat < a.toNat
        · left; simp [keyLtb, h1, h2]
        · rcases ih bs with h | h
          · left; simp [keyLtb, h1, h2, h]
          · right; simp [keyLtb, h1, h2, h]

lemma keyLtb_trans_or : ∀ c a b : List Char, keyLtb c a = true →
    keyLtb c b = true ∨ keyLtb b a = true := by
  intro c
  induction c with
  | nil =>
    intro a b h
    cases a with
    | nil => simp [keyLtb] at h
    | cons a0 as =>
      cases b with
      | nil => right; simp [keyLtb]
      | cons b0 bs => left; simp [keyLtb]
  | cons c0 cs ih =>
    intro a b h
    cases a with
    | nil => simp [keyLtb] at h
    | cons a0 as =>
      cases b with
      | nil => right; simp [keyLtb]
      | cons b0 bs =>
        by_cases hcb : c0.toNat < b0.toNat
        · left; simp [keyLtb, hcb]
        · by_cases hbc : b0.toNat < c0.toNat
          · right
            have hca : c0.toNat ≤ a0.toNat := by
              by_cases hca2 : c0.toNat < a0.toNat
              · omega
              · by_cases hac : a0.toNat < c0.toNat
                · simp [keyLtb, hca2, hac] at h
                · omega
            simp [keyLtb, show b0.toNat < a0.toNat by omega]
          · by_cases hca : c0.toNat < a0.toNat
            · right; simp [keyLtb, show b0.toNat < a0.toNat by omega]
            · by_cases hac : a0.toNat < c0.toNat
              · simp [keyLtb, hca, hac] at h
              · have hrec : keyLtb cs as = true := by
                  simpa [keyLtb, hca, hac] using h
                rcases ih as bs hrec with h2 | h2
                · left; simp [keyLtb, hcb, hbc, h2]
                · right
                  simp [keyLtb, show ¬ b0.toNat < a0.toNat by omega,
                    show ¬ a0.toNat < b0.toNat by omega, h2]

lemma keyLtb_antisymm : ∀ l1 l2 : List Char, keyLtb l1 l2 = false → keyLtb l2 l1 = false →
    l1 = l2 := by
  intro l1
  induction l1 with
  | nil =>
    intro l2 h1 h2
    cases l2 with
    | nil => rfl
    | cons b bs => simp [keyLtb] at h1
  | cons a as ih =>
    intro l2 h1 h2
    cases l2 with
    | nil => simp [keyLtb] at h2
    | cons b bs =>
      by_cases hab : a.toNat < b.toNat
      · simp [keyLtb, hab] at h1
      · by_cases hba : b.toNat < a.toNat
        · simp [keyLtb, hba] at h2
        · have heq : a = b := char_eq_of_toNat_eq a b (by omega)
          have hrec := ih bs (by simpa [keyLtb, hab, hba] using h1)
            (by simpa [keyLtb, hab, hba] using h2)
          rw [heq, hrec]

/-- Ordering parameters by name is total. -/
instance : IsTotal (String × JValue) (fun a b => keyLeb a.1 b.1 = true) :=
  ⟨fun a b => by
    rcases keyLtb_total b.1.data a.1.data with h | h
    · left; simp [keyLeb, h]
    · right; simp [keyLeb, h]⟩

instance : IsTrans (String × JValue) (fun a b => keyLeb a.1 b.1 = true) :=
  ⟨fun a b c h1 h2 => by
    simp only [keyLeb, Bool.not_eq_true', Bool.not_eq_true] at h1 h2 ⊢
    cases h3 : keyLtb c.1.data a.1.data
    · rfl
    · rcases keyLtb_trans_or c.1.data a.1.data b.1.data h3 with h4 | h4
      · rw [h2] at h4; exact h4.symm
      · rw [h1] at h4; exact h4.symm⟩

/-- Two strings below each other in the key order are equal. -/
lemma keyLeb_antisymm (a b : String) (h1 : keyLeb a b = true) (h2 : keyLeb b a = true) :
    a = b := by
  simp only [keyLeb, Bool.not_eq_true', Bool.not_eq_true] at h1 h2
  have hd := keyLtb_antisymm a.data b.data h2 h1
  cases a
  cases b
  exact congrArg String.mk hd

/-- Two name-sorted parameter lists with duplicate-free names that are
permutations of each other are equal. -/
lemma eq_of_perm_sorted_nodupkeys :
    ∀ l1 l2 : List (String × JValue), l1.Perm l2 →
      List.Pairwise (fun a b => keyLeb a.1 b.1 = true) l1 →
      List.Pairwise (fun a b => keyLeb a.1 b.1 = true) l2 →
      (l1.map Prod.fst).Nodup → l1 = l2 := by
  intro l1
  induction l1 with
  | nil =>
    intro l2 hp _ _ _
    exact ((List.Perm.eq_nil hp.symm)).symm
  | cons a t1 ih =>
    intro l2 hp hs1 hs2 hnd
    cases l2 with
    | nil => exact absurd (List.Perm.eq_nil hp) (by simp)
    | cons b t2 =>
      have hnd2 : a.1 ∉ t1.map Prod.fst ∧ (t1.map Prod.fst).Nodup := by
        rw [List.map_cons] at hnd
        exact List.nodup_cons.mp hnd
      have hab : a = b := by
        have hma : a ∈ b :: t2 := hp.mem_iff.mp (List.mem_cons_self _ _)
        rcases List.mem_cons.mp hma with heq | hma2
        · exact heq
        · have hmb : b ∈ a :: t1 := hp.symm.mem_iff.mp (List.mem_cons_self _ _)
          rcases List.mem_cons.mp hmb with heq2 | hmb2
          · exact heq2.symm
          · have h1 : keyLeb a.1 b.1 = true := (List.pairwise_cons.mp hs1).1 b hmb2
            have h2 : keyLeb b.1 a.1 = true := (List.pairwise_cons.mp hs2).1 a hma2
            have hkey : a.1 = b.1 := keyLeb_antisymm a.1 b.1 h1 h2
            exfalso
            apply hnd2.1
            rw [hkey]
            exact List.mem_map_of_mem Prod.fst hmb2
      subst hab
      have hpt : t1.Perm t2 := hp.cons_inv
      rw [ih t2 hpt (List.pairwise_cons.mp hs1).2 (List.pairwise_cons.mp hs2).2 hnd2.2]

/-- `sort_keys=True` is insensitive to the order the parameters were
supplied in, as long as names are not duplicated. -/
lemma sortParams_perm_eq (p1 p2 : List (String × JValue)) (hperm : p1.Perm p2)
    (hnd : (p1.map Prod.fst).Nodup) : sortParams p1 = sortParams p2 := by
  apply eq_of_perm_sorted_nodupkeys
  · exact (List.perm_insertionSort _ p1).trans
      (hperm.trans (List.perm_insertionSort _ p2).symm)
  · exact List.sorted_insertionSort _ p1
  · exact List.sorted_insertionSort _ p2
  · exact (((List.perm_insertionSort _ p1).map Prod.fst).nodup_iff).mpr hnd

/-- C5: key derivation is deterministic — two parameter mappings that hold
the same (name, value) pairs, in any order, derive the same key for every
endpoint.  (`get_cache_key` is a pure function of its arguments, so the key
is also identical across process restarts.) -/
theorem c5_cache_key_deterministic (e : String) (p1 p2 : List (String × JValue))
    (hperm : p1.Perm p2) (hnd : (p1.map Prod.fst).Nodup) :
    get_cache_key e p1 = get_cache_key e p2 := by
  unfold get_cache_key dumpsSorted
  rw [sortParams_perm_eq p1 p2 hperm hnd]

/-- C5 witness: a concrete pair of reordered parameter mappings. -/
theorem c5_cache_key_deterministic_witness :
    ([("skip", JValue.jint 0), ("category", JValue.jstr "Shoes")] : List (String × JValue)).Perm
      [("category", JValue.jstr "Shoes"), ("skip", JValue.jint 0)] ∧
    (([("skip", JValue.jint 0), ("category", JValue.jstr "Shoes")] :
      List (String × JValue)).map Prod.fst).Nodup ∧
    get_cache_key "products" [("skip", JValue.jint 0), ("category", JValue.jstr "Shoes")] =
      get_cache_key "products" [("category", JValue.jstr "Shoes"), ("skip", JValue.jint 0)] :=
  ⟨by decide, by decide,
    c5_cache_key_deterministic "products" _ _ (by decide) (by decide)⟩

/-! ## Store and read-through lemmas -/

lemma find?_filter_ne (st : Store α) (k1 k2 : String) (h : k1 ≠ k2) :
    (st.filter (fun p => !(p.1 == k2))).find? (fun p => p.1 == k1) =
      st.find? (fun p => p.1 == k1) := by
  induction st with
  | nil => rfl
  | cons a t ih =>
    by_cases h2 : a.1 = k2
    · have hb2 : (a.1 == k2) = true := beq_iff_eq.mpr h2
      have hb1 : (a.1 == k1) = false := by
        rw [h2]
        exact beq_eq_false_iff_ne.mpr (Ne.symm h)
      simp [List.filter_cons, List.find?_cons, hb2, hb1, ih]
    · have hb2 : (a.1 == k2) = false := beq_eq_false_iff_ne.mpr h2
      cases hb1 : a.1 == k1
      · simp [List.filter_cons, List.find?_cons, hb2, hb1, ih]
      · simp [List.filter_cons, List.find?_cons, hb2, hb1]

lemma storeLookup_set_self (st : Store α) (now t : Nat) (k : String) (v : α) (ttl : Nat) :
    storeLookup (storeSet st now k v ttl) t k =
      if t < now + ttl then some v else none := by
  simp [storeSet, storeLookup, List.find?_cons]

lemma storeLookup_set_ne (st : Store α) (now t : Nat) (k1 k2 : String) (v : α) (ttl : Nat)
    (h : k1 ≠ k2) :
    storeLookup (storeSet st now k2 v ttl) t k1 = storeLookup st t k1 := by
  have hb : (k2 == k1) = false := beq_eq_false_iff_ne.mpr (Ne.symm h)
  simp [storeSet, storeLookup, List.find?_cons, hb, find?_filter_ne st k1 k2 h]

lemma readThroughList_hit (endpoint : String) (params : List (String × JValue))
    (expire : Nat) (qres : List ρ) (r : RedisState (List ρ)) (now : Nat) (x : ρ) (xs : List ρ)
    (hg : r.getFails = false)
    (hc : storeLookup r.store now (get_cache_key endpoint params) = some (x :: xs)) :
    readThroughList endpoint params expire qres r now = .ok ⟨x :: xs, 0, 0, r⟩ := by
  simp [readThroughList, get_from_cache, hg, hc, Bind.bind, Except.bind, pure, Except.pure]

lemma readThroughList_miss_absent (endpoint : String) (params : List (String × JValue))
    (expire : Nat) (qres : List ρ) (r : RedisState (List ρ)) (now : Nat)
    (hg : r.getFails = false) (hs : r.setFails = false)
    (hc : storeLookup r.store now (get_cache_key endpoint params) = none) :
    readThroughList endpoint params expire qres r now =
      .ok ⟨qres, 1, 1, { r with store := (storeSet r.store now (get_cache_key endpoint params)
        qres (setToCacheExpire (get_cache_key endpoint params) expire)) }⟩ := by
  simp [readThroughList, get_from_cache, set_to_cache, hg, hs, hc, Bind.bind, Except.bind,
    pure, Except.pure]

lemma readThroughList_miss_empty (endpoint : String) (params : List (String × JValue))
    (expire : Nat) (qres : List ρ) (r : RedisState (List ρ)) (now : Nat)
    (hg : r.getFails = false) (hs : r.setFails = false)
    (hc : storeLookup r.store now (get_cache_key endpoint params) = some []) :
    readThroughList endpoint params expire qres r now =
      .ok ⟨qres, 1, 1, { r with store := (storeSet r.store now (get_cache_key endpoint params)
        qres (setToCacheExpire (get_cache_key endpoint params) expire)) }⟩ := by
  simp [readThroughList, get_from_cache, set_to_cache, hg, hs, hc, Bind.bind, Except.bind,
    pure, Except.pure]

lemma readThroughList_getFails (endpoint : String) (params : List (String × JValue))
    (expire : Nat) (qres : List ρ) (r : RedisState (List ρ)) (now : Nat)
    (hg : r.getFails = true) :
    readThroughList endpoint params expire qres r now = .error () := by
  simp [readThroughList, get_from_cache, hg, Bind.bind, Except.bind]

lemma readThroughList_setFails_absent (endpoint : String) (params : List (String × JValue))
    (expire : Nat) (qres : List ρ) (r : RedisState (List ρ)) (now : Nat)
    (hg : r.getFails = false) (hs : r.setFails = true)
    (hc : storeLookup r.store now (get_cache_key endpoint params) = none) :
    readThroughList endpoint params expire qres r now = .error () := by
  simp [readThroughList, get_from_cache, set_to_cache, hg, hs, hc, Bind.bind, Except.bind,
    pure, Except.pure]

/-- The TTL the fact-sales write actually stores is the 300-second argument. -/
lemma factWriteTtl (p : FactParams) : setToCacheExpire (factKey p) 300 = 300 :=
  setToCacheExpire_derived "fact_sales" _ 300 (by decide) (by decide) (by decide)
    (by decide) (by decide)

/-- C2 amended: read-through correctness with the non-empty proviso.  A
request finding no live entry under its derived key performs exactly one
source-of-truth query and one store write; the identical request before the
300-second TTL has elapsed performs zero queries and returns the cached
payload — provided the cached payload is non-empty (an empty decoded payload
is falsy and is treated as a miss, see the counterexample). -/
theorem c2_read_through_correctness (parseIso : String → Option Nat) (db : List FactRow)
    (r : RedisState (List FactRow)) (now1 now2 : Nat) (p : FactParams)
    (hg : r.getFails = false) (hs : r.setFails = false)
    (hmiss : storeLookup r.store now1 (factKey p) = none)
    (hlive : now2 < now1 + 300)
    (hne : runFactQuery db now1 p (factFromDate parseIso p) (min p.limit 10000) ≠ []) :
    ∃ r1 : RedisState (List FactRow),
      get_all_item parseIso db r now1 p =
        .ok ⟨runFactQuery db now1 p (factFromDate parseIso p) (min p.limit 10000), 1, 1, r1⟩ ∧
      r1.store = storeSet r.store now1 (factKey p)
        (runFactQuery db now1 p (factFromDate parseIso p) (min p.limit 10000)) 300 ∧
      get_all_item parseIso db r1 now2 p =
        .ok ⟨runFactQuery db now1 p (factFromDate parseIso p) (min p.limit 10000), 0, 0, r1⟩ := by
  refine ⟨⟨storeSet r.store now1 (factKey p)
      (runFactQuery db now1 p (factFromDate parseIso p) (min p.limit 10000))
      (setToCacheExpire (factKey p) 300), r.getFails, r.setFails⟩, ?_, ?_, ?_⟩
  · exact readThroughList_miss_absent "fact_sales" _ 300 _ r now1 hg hs hmiss
  · show storeSet r.store now1 (factKey p)
      (runFactQuery db now1 p (factFromDate parseIso p) (min p.limit 10000))
      (setToCacheExpire (factKey p) 300) = storeSet r.store now1 (factKey p)
      (runFactQuery db now1 p (factFromDate parseIso p) (min p.limit 10000)) 300
    rw [factWriteTtl p]
  · have hlook : storeLookup (storeSet r.store now1 (factKey p)
        (runFactQuery db now1 p (factFromDate parseIso p) (min p.limit 10000))
        (setToCacheExpire (factKey p) 300)) now2 (factKey p) =
        some (runFactQuery db now1 p (factFromDate parseIso p) (min p.limit 10000)) := by
      rw [storeLookup_set_self, factWriteTtl p, if_pos hlive]
    cases hqr : runFactQuery db now1 p (factFromDate parseIso p) (min p.limit 10000) with
    | nil => exact absurd hqr hne
    | cons x xs =>
      rw [hqr] at hlook
      have h2 := readThroughList_hit "fact_sales"
        (factParamsList p (min p.limit 10000)) 300
        (runFactQuery db now2 p (factFromDate parseIso p) (min p.limit 10000))
        ⟨storeSet r.store now1 (factKey p) (x :: xs) (setToCacheExpire (factKey p) 300),
          r.getFails, r.setFails⟩ now2 x xs hg hlook
      exact h2

/-- C2 witness: a one-row database, a fresh cache, and the same request
repeated ten seconds later. -/
theorem c2_read_through_correctness_witness :
    ∃ r1 : RedisState (List FactRow),
      get_all_item (fun _ => none) [⟨"Widget", "Tools", 10, "delivered", 500, 1,
        "success", "card", "a@b.com"⟩] ⟨[], false, false⟩ 0 {} =
        .ok ⟨runFactQuery [⟨"Widget", "Tools", 10, "delivered", 500, 1,
          "success", "card", "a@b.com"⟩] 0 {} none 1000, 1, 1, r1⟩ ∧
      r1.store = storeSet [] 0 (factKey {}) (runFactQuery [⟨"Widget", "Tools", 10,
        "delivered", 500, 1, "success", "card", "a@b.com"⟩] 0 {} none 1000) 300 ∧
      get_all_item (fun _ => none) [⟨"Widget", "Tools", 10, "delivered", 500, 1,
        "success", "card", "a@b.com"⟩] r1 10 {} =
        .ok ⟨runFactQuery [⟨"Widget", "Tools", 10, "delivered", 500, 1,
          "success", "card", "a@b.com"⟩] 0 {} none 1000, 0, 0, r1⟩ :=
  c2_read_through_correctness (fun _ => none)
    [⟨"Widget", "Tools", 10, "delivered", 500, 1, "success", "card", "a@b.com"⟩]
    ⟨[], false, false⟩ 0 10 {} rfl rfl rfl (by decide) (by decide)

/-- The redis state after the first request of the C2 counterexample run. -/
def c2Redis1 : RedisState (List FactRow) :=
  ⟨storeSet [] 0 (factKey {}) [] 300, false, false⟩

/-- C2 counterexample: with an empty source of truth the first request
stores the empty list, and the identical request one second later — far
inside the TTL — still performs one source-of-truth query instead of the
zero the claim requires: the empty decoded payload fails the truthiness
hit check. -/
theorem c2_read_through_counterexample :
    get_all_item (fun _ => none) [] ⟨[], false, false⟩ 0 {} = .ok ⟨[], 1, 1, c2Redis1⟩ ∧
    (get_all_item (fun _ => none) [] c2Redis1 1 {}).map ReadOut.sotQueries = .ok 1 := by
  constructor
  · have h1 := readThroughList_miss_absent "fact_sales"
      (factParamsList ({} : FactParams) (min 1000 10000)) 300
      (runFactQuery [] 0 {} none (min 1000 10000)) ⟨[], false, false⟩ 0 rfl rfl rfl
    have h2 : (runFactQuery [] 0 ({} : FactParams) none (min 1000 10000)) = ([] : List FactRow) := rfl
    rw [h2] at h1
    refine h1.trans ?_
    have h3 : setToCacheExpire (get_cache_key "fact_sales"
        (factParamsList ({} : FactParams) (min 1000 10000))) 300 = 300 := factWriteTtl {}
    rw [h3]
    rfl
  · have hlook : storeLookup c2Redis1.store 1 (factKey ({} : FactParams)) = some [] := by
      show storeLookup (storeSet [] 0 (factKey {}) [] 300) 1 (factKey {}) = some []
      rw [storeLookup_set_self]
      decide
    have h1 := readThroughList_miss_empty "fact_sales"
      (factParamsList ({} : FactParams) (min 1000 10000)) 300
      (runFactQuery [] 1 {} none (min 1000 10000)) c2Redis1 1 rfl rfl hlook
    rw [show (get_all_item (fun _ => none) [] c2Redis1 1 {}) =
      readThroughList "fact_sales" (factParamsList ({} : FactParams) (min 1000 10000)) 300
        (runFactQuery [] 1 {} none (min 1000 10000)) c2Redis1 1 from rfl, h1]
    rfl

/-- C3 counterexample: a failing store command surfaces to the caller as a
request error.  With the lookup command failing, `/all` returns an error
instead of falling back to the source of truth; with the write command
failing, `/all` returns an error even though the fresh payload had been
computed. -/
theorem c3_store_failure_surfaces_counterexample :
    get_all_item (fun _ => none) [] ⟨[], true, false⟩ 0 {} = .error () ∧
    get_all_item (fun _ => none) [] ⟨[], false, true⟩ 0 {} = .error () :=
  ⟨rfl, rfl⟩

/-- C3 amended: there is no exception handling around the store commands, so
a store failure during the cache lookup propagates as a request error
(no fallback to the source of truth), and a store failure during the write
after recomputation also propagates instead of being swallowed. -/
theorem c3_store_failure_propagates (parseIso : String → Option Nat) (db : List FactRow)
    (r : RedisState (List FactRow)) (now : Nat) (p : FactParams) :
    (r.getFails = true → get_all_item parseIso db r now p = .error ()) ∧
    (r.getFails = false → r.setFails = true →
      storeLookup r.store now (factKey p) = none →
      get_all_item parseIso db r now p = .error ()) := by
  constructor
  · intro hg
    exact readThroughList_getFails "fact_sales" _ 300 _ r now hg
  · intro hg hs hc
    exact readThroughList_setFails_absent "fact_sales" _ 300 _ r now hg hs hc

/-- C3 witness: the two failure modes at concrete states. -/
theorem c3_store_failure_propagates_witness :
    get_all_item (fun _ => none) [] ⟨[], true, false⟩ 5 {} = .error () ∧
    get_all_item (fun _ => none) [] ⟨[], false, true⟩ 5 {} = .error () :=
  ⟨(c3_store_failure_propagates (fun _ => none) [] ⟨[], true, false⟩ 5 {}).1 rfl,
   (c3_store_failure_propagates (fun _ => none) [] ⟨[], false, true⟩ 5 {}).2 rfl rfl rfl⟩

/-- C9: a stored empty-list payload is indistinguishable from an absent
entry — the next identical request takes the miss path, performing one
source-of-truth query and one rewriting store write, on `/all` and on
`/products` alike. -/
theorem c9_empty_payload_requeried (parseIso : String → Option Nat) (db : List FactRow)
    (dbp : List ProductRow) (r : RedisState (List FactRow))
    (rp : RedisState (List ProductRow)) (now : Nat) (p : FactParams) (q : ProductParams)
    (hg : r.getFails = false) (hs : r.setFails = false)
    (hc : storeLookup r.store now (factKey p) = some [])
    (hgp : rp.getFails = false) (hsp : rp.setFails = false)
    (hcp : storeLookup rp.store now (productsKey q) = some []) :
    (∃ r1, get_all_item parseIso db r now p =
      .ok ⟨runFactQuery db now p (factFromDate parseIso p) (min p.limit 10000), 1, 1, r1⟩) ∧
    (∃ r2, get_all_products dbp rp now q = .ok ⟨runProductsQuery dbp q, 1, 1, r2⟩) := by
  constructor
  · exact ⟨_, readThroughList_miss_empty "fact_sales" _ 300 _ r now hg hs hc⟩
  · exact ⟨_, readThroughList_miss_empty "products" _ 600 _ rp now hgp hsp hcp⟩

/-- C9 witness: concrete stores holding empty payloads under the derived keys. -/
theorem c9_empty_payload_requeried_witness :
    (∃ r1, get_all_item (fun _ => none) [] ⟨storeSet [] 0 (factKey {}) [] 300, false, false⟩
      5 {} = .ok ⟨runFactQuery [] 5 {} none (min 1000 10000), 1, 1, r1⟩) ∧
    (∃ r2, get_all_products [] ⟨storeSet [] 0 (productsKey {}) [] 600, false, false⟩
      5 {} = .ok ⟨runProductsQuery [] {}, 1, 1, r2⟩) :=
  c9_empty_payload_requeried (fun _ => none) [] [] _ _ 5 {} {} rfl rfl
    (by rw [storeLookup_set_self]; decide) rfl rfl
    (by rw [storeLookup_set_self]; decide)

/-- C10: on `/all` and `/products/search` the effective limit is
`min(limit, 10000)`, and this capped value is what enters both the key
derivation and the source-of-truth query — so two requests identical except
for limits that are both at least 10000 derive the same key and produce the
same response. -/
theorem c10_limit_cap (parseIso : String → Option Nat) (db dbs : List FactRow)
    (r rs : RedisState (List FactRow)) (now : Nat) (p : FactParams) (q : SearchParams)
    (l1 l2 : Nat) (h1 : 10000 ≤ l1) (h2 : 10000 ≤ l2) :
    factKey { p with limit := l1 } = factKey { p with limit := l2 } ∧
    get_all_item parseIso db r now { p with limit := l1 } =
      get_all_item parseIso db r now { p with limit := l2 } ∧
    searchKey { q with limit := l1 } = searchKey { q with limit := l2 } ∧
    search_products_sales dbs rs now { q with limit := l1 } =
      search_products_sales dbs rs now { q with limit := l2 } := by
  have e1 : min l1 10000 = 10000 := Nat.min_eq_right h1
  have e2 : min l2 10000 = 10000 := Nat.min_eq_right h2
  refine ⟨?_, ?_, ?_, ?_⟩ <;>
    simp [factKey, get_all_item, searchKey, search_products_sales, factFromDate,
      runFactQuery, runSearchQuery, factRowMatch, e1, e2] <;> rfl

/-- C10 witness: two concrete oversized limits. -/
theorem c10_limit_cap_witness :
    factKey { limit := 10000 } = factKey { limit := 123456 } ∧
    get_all_item (fun _ => none) [] ⟨[], false, false⟩ 0 { limit := 10000 } =
      get_all_item (fun _ => none) [] ⟨[], false, false⟩ 0 { limit := 123456 } ∧
    searchKey { query := "shoe", limit := 10000 } =
      searchKey { query := "shoe", limit := 123456 } ∧
    search_products_sales [] ⟨[], false, false⟩ 0 { query := "shoe", limit := 10000 } =
      search_products_sales [] ⟨[], false, false⟩ 0 { query := "shoe", limit := 123456 } :=
  c10_limit_cap (fun _ => none) [] [] ⟨[], false, false⟩ ⟨[], false, false⟩ 0
    {} { query := "shoe" } 10000 123456 (by decide) (by decide)

/-- C7 counterexample: on `/stats/charts` an unrecognized time-window token
is not treated as "no window filter applied" — the query is filtered to the
default 7-day week window. -/
theorem c7_unrecognized_period_chart_counterexample :
    chart_start_delta "garbage" = 7 ∧ chartDateFilter 100 "garbage" ≠ none ∧
    chartDateFilter 100 "garbage" = chartDateFilter 100 "week" := by
  refine ⟨rfl, ?_, rfl⟩
  decide

/-- C7 amended: an unrecognized time-window token runs the query unfiltered
by date on `/all` (even when a `from_date` fallback is supplied) and on
`/products/search`, and takes the same all-periods default branch as an
absent token on `/stats/summary`; on `/stats/charts`, however, it falls back
to the 7-day week window instead of running unfiltered.  No endpoint
rejects the token. -/
theorem c7_unrecognized_period_handling (p : String)
    (hp : periodsMapDays.lookup p = none) (hne : p ≠ "") (now : Nat) (fdp : Option Nat) :
    factStartDate now (some p) fdp = none ∧
    searchStartDate now (some p) = none ∧
    summaryMode (some p) = .allPeriods ∧
    chart_start_delta p = 7 := by
  have ht : truthyOptStr (some p) = true := by
    simp [truthyOptStr, hne]
  refine ⟨?_, ?_, ?_, ?_⟩
  · simp [factStartDate, ht, Option.getD, hp]
  · simp [searchStartDate, ht, Option.getD, hp]
  · simp [summaryMode, Option.getD, hp]
  · simp [chart_start_delta, hp]

/-- C7 witness: the unrecognized token `"garbage"`. -/
theorem c7_unrecognized_period_handling_witness :
    factStartDate 5 (some "garbage") (some 42) = none ∧
    searchStartDate 5 (some "garbage") = none ∧
    summaryMode (some "garbage") = .allPeriods ∧
    chart_start_delta "garbage" = 7 :=
  c7_unrecognized_period_handling "garbage" (by decide) (by decide) 5 (some 42)

/-! ## Preload lemmas: the nine preload cache keys are pairwise distinct -/

lemma storeLookup_nil (now : Nat) (k : String) : storeLookup ([] : Store α) now k = none := rfl

lemma key_ne_of_head (k1 k2 : String) (c1 c2 : Char) (h1 : k1.data.head? = some c1)
    (h2 : k2.data.head? = some c2) (hne : c1 ≠ c2) : k1 ≠ k2 := by
  intro h
  rw [h, h2] at h1
  exact hne (Option.some.inj h1).symm

lemma tableKey_ne_chartKey (w v : String) : tableKey w ≠ chartKey v :=
  key_ne_of_head _ _ 'f' 'c' rfl rfl (by decide)

lemma tableKey_ne_summaryKey (w v : String) : tableKey w ≠ summaryKey v :=
  key_ne_of_head _ _ 'f' 's' rfl rfl (by decide)

lemma summaryKey_ne_chartKey (w v : String) : summaryKey w ≠ chartKey v :=
  key_ne_of_head _ _ 's' 'c' rfl rfl (by decide)

lemma summaryKey_ne_tableKey (w v : String) : summaryKey w ≠ tableKey v :=
  key_ne_of_head _ _ 's' 'f' rfl rfl (by decide)

lemma tableKey_ne_69 : tableKey "6months" ≠ tableKey "9months" := by decide

lemma tableKey_ne_61 : tableKey "6months" ≠ tableKey "1year" := by decide

lemma tableKey_ne_91 : tableKey "9months" ≠ tableKey "1year" := by decide

lemma tableKey_ne_96 : tableKey "9months" ≠ tableKey "6months" := Ne.symm tableKey_ne_69

lemma tableKey_ne_16 : tableKey "1year" ≠ tableKey "6months" := Ne.symm tableKey_ne_61

lemma tableKey_ne_19 : tableKey "1year" ≠ tableKey "9months" := Ne.symm tableKey_ne_91

lemma summaryKey_ne_69 : summaryKey "6months" ≠ summaryKey "9months" := by decide

lemma summaryKey_ne_61 : summaryKey "6months" ≠ summaryKey "1year" := by decide

lemma summaryKey_ne_91 : summaryKey "9months" ≠ summaryKey "1year" := by decide

lemma summaryKey_ne_96 : summaryKey "9months" ≠ summaryKey "6months" := Ne.symm summaryKey_ne_69

lemma summaryKey_ne_16 : summaryKey "1year" ≠ summaryKey "6months" := Ne.symm summaryKey_ne_61

lemma summaryKey_ne_19 : summaryKey "1year" ≠ summaryKey "9months" := Ne.symm summaryKey_ne_91

/-- The preload writes pass `expire=3600*24` explicitly, and the adaptive
branches never fire on derived keys, so the stored TTL is 86400. -/
lemma chartTtl (w : String) : setToCacheExpire (chartKey w) 86400 = 86400 :=
  setToCacheExpire_derived "chart_stats" _ _ (by decide) (by decide) (by decide)
    (by decide) (by decide)

lemma tableTtl (w : String) : setToCacheExpire (tableKey w) 86400 = 86400 :=
  setToCacheExpire_derived "fact_sales" _ _ (by decide) (by decide) (by decide)
    (by decide) (by decide)

lemma summaryTtl (w : String) : setToCacheExpire (summaryKey w) 86400 = 86400 :=
  setToCacheExpire_derived "summary_stats" _ _ (by decide) (by decide) (by decide)
    (by decide) (by decide)

/-- The failure oracle of a clean run: no pair fails. -/
def noFail : Shape → String → Bool := fun _ _ => false

/-- A failure oracle where only the table pair of the first window fails. -/
def failTable6 : Shape → String → Bool :=
  fun s w => s == Shape.table && w == "6months"

/-- C4 counterexample: with only the table pair of the first window failing,
preloading aborts — the remaining pairs, among them the summary pair of the
same window and every pair of the later windows, are never attempted,
contrary to the claim that every other pair is still attempted. -/
theorem c4_preload_abort_counterexample :
    (preload_cache failTable6 0 []).aborted = true ∧
    (preload_cache failTable6 0 []).queried = [(.chart, "6months"), (.table, "6months")] ∧
    (Shape.summary, "6months") ∉ (preload_cache failTable6 0 []).queried ∧
    (Shape.chart, "9months") ∉ (preload_cache failTable6 0 []).queried := by
  decide

/-- C4 amended: only the chart block sits in its own `try/except`, so a
chart failure is caught and logged and every other pair is still attempted;
but a failure computing or storing a table-listing or summary pair escapes
to the outer handler, which stops the loop and skips all remaining pairs. -/
theorem c4_preload_failure_containment :
    (∀ (fail : Shape → String → Bool) (now : Nat),
      (∀ w, fail .table w = false) → (∀ w, fail .summary w = false) →
      (preload_cache fail now []).aborted = false ∧
      (preload_cache fail now []).queried =
        [(.chart, "6months"), (.table, "6months"), (.summary, "6months"),
         (.chart, "9months"), (.table, "9months"), (.summary, "9months"),
         (.chart, "1year"), (.table, "1year"), (.summary, "1year")]) ∧
    (∀ (fail : Shape → String → Bool) (now : Nat),
      fail .table "6months" = true →
      (preload_cache fail now []).aborted = true ∧
      (Shape.chart, "9months") ∉ (preload_cache fail now []).queried) := by
  constructor
  · intro fail now ht hs
    cases h6 : fail Shape.chart "6months" <;> cases h9 : fail Shape.chart "9months" <;>
      cases h1y : fail Shape.chart "1year" <;>
      simp [preload_cache, preloadWindows, preloadGo, preloadStep, preloadSummaryStep,
        h6, h9, h1y, ht, hs, storeLookup_nil, storeLookup_set_ne, chartTtl, tableTtl,
        summaryTtl, tableKey_ne_chartKey, tableKey_ne_summaryKey, summaryKey_ne_chartKey,
        summaryKey_ne_tableKey, tableKey_ne_69, tableKey_ne_61, tableKey_ne_91,
        tableKey_ne_96, tableKey_ne_16, tableKey_ne_19, summaryKey_ne_69, summaryKey_ne_61,
        summaryKey_ne_91, summaryKey_ne_96, summaryKey_ne_16, summaryKey_ne_19]
  · intro fail now hf
    cases h6 : fail Shape.chart "6months" <;>
      simp [preload_cache, preloadWindows, preloadGo, preloadStep, preloadSummaryStep,
        h6, hf, storeLookup_nil, storeLookup_set_ne, tableKey_ne_chartKey]

/-- C4 witness: a chart-only failure aborts nothing, a table failure aborts. -/
theorem c4_preload_failure_containment_witness :
    ((preload_cache (fun s w => s == Shape.chart && w == "9months") 0 []).aborted = false ∧
     (preload_cache (fun s w => s == Shape.chart && w == "9months") 0 []).queried =
       [(.chart, "6months"), (.table, "6months"), (.summary, "6months"),
        (.chart, "9months"), (.table, "9months"), (.summary, "9months"),
        (.chart, "1year"), (.table, "1year"), (.summary, "1year")]) ∧
    ((preload_cache failTable6 0 []).aborted = true ∧
     (Shape.chart, "9months") ∉ (preload_cache failTable6 0 []).queried) :=
  ⟨c4_preload_failure_containment.1 (fun s w => s == Shape.chart && w == "9months") 0
      (fun _ => rfl) (fun _ => rfl),
   c4_preload_failure_containment.2 failTable6 0 rfl⟩

/-- C6: starting the Preload Scheduler a second time while the first run's
entries are still live (before their 86400-second TTL has elapsed) never
errors; the second run performs no source-of-truth queries for the
table-listing and summary shapes — their live entries are detected and
recomputation is skipped — while the chart shape is recomputed
unconditionally for every window. -/
theorem c6_preload_second_run_idempotent (now1 now2 : Nat) (h2 : now2 < now1 + 86400) :
    (preload_cache noFail now1 []).aborted = false ∧
    (preload_cache noFail now1 []).queried =
      [(.chart, "6months"), (.table, "6months"), (.summary, "6months"),
       (.chart, "9months"), (.table, "9months"), (.summary, "9months"),
       (.chart, "1year"), (.table, "1year"), (.summary, "1year")] ∧
    (preload_cache noFail now2 (preload_cache noFail now1 []).store).aborted = false ∧
    (preload_cache noFail now2 (preload_cache noFail now1 []).store).queried =
      [(.chart, "6months"), (.chart, "9months"), (.chart, "1year")] := by
  simp [preload_cache, preloadWindows, preloadGo, preloadStep, preloadSummaryStep, noFail,
    storeLookup_nil, storeLookup_set_self, storeLookup_set_ne, chartTtl, tableTtl, summaryTtl,
    tableKey_ne_chartKey, tableKey_ne_summaryKey, summaryKey_ne_chartKey, summaryKey_ne_tableKey,
    tableKey_ne_69, tableKey_ne_61, tableKey_ne_91, tableKey_ne_96, tableKey_ne_16,
    tableKey_ne_19, summaryKey_ne_69, summaryKey_ne_61, summaryKey_ne_91, summaryKey_ne_96,
    summaryKey_ne_16, summaryKey_ne_19, h2]

/-- C6 witness: a first run at time 0 and a second run one second later. -/
theorem c6_preload_second_run_idempotent_witness :
    (preload_cache noFail 0 []).aborted = false ∧
    (preload_cache noFail 0 []).queried =
      [(.chart, "6months"), (.table, "6months"), (.summary, "6months"),
       (.chart, "9months"), (.table, "9months"), (.summary, "9months"),
       (.chart, "1year"), (.table, "1year"), (.summary, "1year")] ∧
    (preload_cache noFail 1 (preload_cache noFail 0 []).store).aborted = false ∧
    (preload_cache noFail 1 (preload_cache noFail 0 []).store).queried =
      [(.chart, "6months"), (.chart, "9months"), (.chart, "1year")] :=
  c6_preload_second_run_idempotent 0 1 (by decide)

end Mirtech
